import Mathlib

/-!
Shallow embedding of the JobTech search API client (`src/lib/jobApi.js`):
query-string construction, response normalization, error mapping, and the
logo validation heuristic, together with theorems settling the spec claims.

JavaScript values that flow through the client untyped (response bodies,
the `total` field) are modelled by an explicit `JsValue` type with
JavaScript truthiness; the network is modelled by an explicit
`FetchOutcome` describing what a single `fetch` call did; exceptions are
modelled by `Except String`.
-/

namespace JobApi

/-- A JavaScript value, as far as this client observes them: the response
body of `response.json()` and its members. Numbers are modelled as
integers (every number the claims mention is an integer). -/
inductive JsValue where
  | null : JsValue
  | undefined : JsValue
  | bool (b : Bool) : JsValue
  | num (n : Int) : JsValue
  | str (s : String) : JsValue
  | arr (elems : List JsValue) : JsValue
  | obj (fields : List (String × JsValue)) : JsValue

/-- JavaScript truthiness for the modelled values (`NaN` is not modelled;
every object and array is truthy). -/
def jsTruthy : JsValue → Bool
  | .null => false
  | .undefined => false
  | .bool b => b
  | .num n => n != 0
  | .str s => s != ""
  | .arr _ => true
  | .obj _ => true

/-- The JavaScript expression `a || b` on modelled values. -/
def jsOr (a b : JsValue) : JsValue :=
  if jsTruthy a then a else b

/-- Property access `v.k`: throws a TypeError on `null`/`undefined`,
yields the member (or `undefined`) otherwise. Mirrors how
`data.hits`, `data.total` and `errorData.message` behave. -/
def jsGetMember (v : JsValue) (k : String) : Except String JsValue :=
  match v with
  | .null => .error "TypeError: Cannot read properties of null"
  | .undefined => .error "TypeError: Cannot read properties of undefined"
  | .obj fields =>
      .ok (match fields.lookup k with
           | some w => w
           | none => .undefined)
  | _ => .ok .undefined

/-- Model of `String.prototype.trim`: drop whitespace from both ends
(ECMAScript also strips a few exotic Unicode spaces; the claims only
involve ASCII whitespace). -/
def jsTrim (s : String) : String :=
  ⟨((s.data.dropWhile fun c => c.isWhitespace).reverse.dropWhile
      fun c => c.isWhitespace).reverse⟩

/-- Does the list of characters contain `sub` as a contiguous sublist? -/
def listContainsSub (l sub : List Char) : Bool :=
  match l with
  | [] => sub.isEmpty
  | _ :: t => sub.isPrefixOf l || listContainsSub t sub

/-- Model of `String.prototype.includes` for substrings. -/
def strIncludes (s sub : String) : Bool :=
  listContainsSub s.data sub.data

/-- Model of `parseInt(s, 10)`: skip leading whitespace, optional sign,
then the longest digit run; no digits means `NaN`, modelled as `none`. -/
def jsParseInt (s : String) : Option Int :=
  let cs := s.data.dropWhile (fun c => c.isWhitespace)
  let (sign, rest) : Int × List Char :=
    match cs with
    | '-' :: t => (-1, t)
    | '+' :: t => (1, t)
    | t => (1, t)
  let digits := rest.takeWhile (fun c => c.isDigit)
  if digits.isEmpty then none
  else some (sign * (digits.foldl (fun a c => 10 * a + (Int.ofNat (c.toNat - 48))) 0))

/-- A JavaScript `Date` object as this client uses one: either a valid
time value, represented by its canonical ISO-8601 rendering (what
`toISOString` would print), or an Invalid Date. -/
inductive JsDate where
  | valid (iso : String) : JsDate
  | invalid : JsDate

/-- `Date.prototype.toISOString`: renders a valid date, throws a
`RangeError: Invalid time value` on an Invalid Date. -/
def JsDate.toISOString : JsDate → Except String String
  | .valid iso => .ok iso
  | .invalid => .error "Invalid time value"

/-- Model of ECMAScript date-string parsing (`new Date(string)`), which
is host behavior, not repository code: parsing is partial, and a string
the host cannot parse yields an Invalid Date. Modelled for date-only ISO
strings `YYYY-MM-DD` (month 01-12, day 01-31), which ECMAScript parses as
UTC midnight and renders as `YYYY-MM-DDT00:00:00.000Z`; every other
string is modelled as Invalid Date. -/
def jsNewDate (s : String) : JsDate :=
  match s.data with
  | [y1, y2, y3, y4, '-', m1, m2, '-', d1, d2] =>
      if ([y1, y2, y3, y4, m1, m2, d1, d2].all fun c => c.isDigit) then
        let mo := (m1.toNat - 48) * 10 + (m2.toNat - 48)
        let da := (d1.toNat - 48) * 10 + (d2.toNat - 48)
        if 1 ≤ mo && mo ≤ 12 && 1 ≤ da && da ≤ 31 then
          .valid (s ++ "T00:00:00.000Z")
        else .invalid
      else .invalid
  | _ => .invalid

/-- The `publishedAfter` option: the JSDoc of `formatPublishedAfterDate`
says a `Date` object or a string. -/
inductive DateInput where
  | str (s : String) : DateInput
  | date (d : JsDate) : DateInput

/-- JavaScript truthiness of a `publishedAfter` value: `""` is falsy,
every `Date` object (Invalid Date included) is truthy. -/
def DateInput.jsTruthyD : DateInput → Bool
  | .str s => s != ""
  | .date _ => true

/-- `formatPublishedAfterDate(date)` from `src/lib/jobApi.js`: empty or
missing input yields `""`; a string is first parsed with `new Date`;
the result of `toISOString` is returned, so an Invalid Date makes this
function throw a RangeError. -/
def formatPublishedAfterDate (date : DateInput) : Except String String :=
  if ¬ date.jsTruthyD then .ok ""
  else
    let dateObj : JsDate :=
      match date with
      | .str s => jsNewDate s
      | .date d => d
    dateObj.toISOString

/-- `API_BASE_URL` from `src/lib/jobApi.js`. -/
def API_BASE_URL : String := "https://links.api.jobtechdev.se"

/-- The argument record of `searchJobs`, one `Option` field per
destructured parameter; `none` means the caller omitted the field, so
the destructuring default applies. -/
structure SearchOptions where
  q : Option String
  occupationField : Option String
  occupationGroup : Option String
  municipality : Option String
  region : Option String
  country : Option String
  employer : Option String
  remote : Option Bool
  publishedAfter : Option DateInput
  excludeSource : Option String
  sort : Option String
  limit : Option Int
  offset : Option Int
  abroad : Option Bool

/-- A `searchJobs` call with every argument omitted (all defaults). -/
def defaultOpts : SearchOptions :=
  ⟨none, none, none, none, none, none, none, none, none, none, none, none, none, none⟩

/-- `params.append('q', q.trim())` guarded by `if (q?.trim())`. -/
def qSeg (o : SearchOptions) : List (String × String) :=
  let q := jsTrim (o.q.getD "")
  if q ≠ "" then [("q", q)] else []

/-- The municipality block of `searchJobs`: the literal `"Stockholm"` is
replaced by the code `"0180"`; concept IDs (containing an underscore),
numeric codes, and anything else are passed through trimmed. -/
def municipalitySeg (o : SearchOptions) : List (String × String) :=
  let m := jsTrim (o.municipality.getD "")
  if m ≠ "" then
    if m = "Stockholm" then [("municipality", "0180")]
    else if m.data.contains '_' then [("municipality", m)]
    else if m.length > 0 && (m.data.all fun c => c.isDigit) then [("municipality", m)]
    else [("municipality", m)]
  else []

/-- `params.append('region', region.trim())` guarded on the trim. -/
def regionSeg (o : SearchOptions) : List (String × String) :=
  let r := jsTrim (o.region.getD "")
  if r ≠ "" then [("region", r)] else []

/-- `params.append('country', country.trim())` guarded on the trim. -/
def countrySeg (o : SearchOptions) : List (String × String) :=
  let c := jsTrim (o.country.getD "")
  if c ≠ "" then [("country", c)] else []

/-- `params.append('occupation-field', occupationField.trim())`. -/
def occupationFieldSeg (o : SearchOptions) : List (String × String) :=
  let v := jsTrim (o.occupationField.getD "")
  if v ≠ "" then [("occupation-field", v)] else []

/-- `params.append('occupation-group', occupationGroup.trim())`. -/
def occupationGroupSeg (o : SearchOptions) : List (String × String) :=
  let v := jsTrim (o.occupationGroup.getD "")
  if v ≠ "" then [("occupation-group", v)] else []

/-- `params.append('employer', employer.trim())`. -/
def employerSeg (o : SearchOptions) : List (String × String) :=
  let v := jsTrim (o.employer.getD "")
  if v ≠ "" then [("employer", v)] else []

/-- `if (remote) params.append('remote', 'true')`. -/
def remoteSeg (o : SearchOptions) : List (String × String) :=
  if o.remote.getD false then [("remote", "true")] else []

/-- `if (abroad) params.append('abroad', 'true')`. -/
def abroadSeg (o : SearchOptions) : List (String × String) :=
  if o.abroad.getD false then [("abroad", "true")] else []

/-- `params.append('exclude_source', excludeSource.trim())`. -/
def excludeSourceSeg (o : SearchOptions) : List (String × String) :=
  let v := jsTrim (o.excludeSource.getD "")
  if v ≠ "" then [("exclude_source", v)] else []

/-- `if (publishedAfter) params.append('published-after',
formatPublishedAfterDate(publishedAfter))`: the only step of query
construction that can throw. -/
def publishedAfterSeg (o : SearchOptions) : Except String (List (String × String)) :=
  let pub := o.publishedAfter.getD (.str "")
  if pub.jsTruthyD then do
    let v ← formatPublishedAfterDate pub
    pure [("published-after", v)]
  else pure []

/-- `params.append('limit', Math.min(100, Math.max(1, limit)).toString())`
with the destructuring default `limit = 20`. -/
def limitSeg (o : SearchOptions) : List (String × String) :=
  [("limit", toString (min 100 (max 1 (o.limit.getD 20))))]

/-- `params.append('offset', Math.max(0, Math.min(2000, offset)).toString())`
with the destructuring default `offset = 0`. -/
def offsetSeg (o : SearchOptions) : List (String × String) :=
  [("offset", toString (max 0 (min 2000 (o.offset.getD 0))))]

/-- `if (sort && [...].includes(sort)) params.append('sort', sort)` with
the destructuring default `sort = 'pubdate-desc'`. -/
def sortSeg (o : SearchOptions) : List (String × String) :=
  let s := o.sort.getD "pubdate-desc"
  if s ≠ "" && (["pubdate-desc", "pubdate-asc", "relevance"].contains s) then
    [("sort", s)]
  else []

/-- The `URLSearchParams` built by `searchJobs`, in the exact append
order of the source. The source appends into a mutable `URLSearchParams`
and the single fallible step (the `published-after` date formatting)
discards the whole collection when it throws, so the sequential appends
are equivalent to this one concatenation under `Except`. -/
def buildParams (o : SearchOptions) : Except String (List (String × String)) := do
  let pubPart ← publishedAfterSeg o
  pure (qSeg o ++ municipalitySeg o ++ regionSeg o ++ countrySeg o ++
        occupationFieldSeg o ++ occupationGroupSeg o ++ employerSeg o ++
        remoteSeg o ++ abroadSeg o ++ excludeSourceSeg o ++ pubPart ++
        limitSeg o ++ offsetSeg o ++ sortSeg o)

/-- Uppercase hexadecimal digit. -/
def hexDigit (n : Nat) : Char :=
  if n < 10 then Char.ofNat (48 + n) else Char.ofNat (55 + n)

/-- Percent-encoding of one byte under application/x-www-form-urlencoded
(what `URLSearchParams.toString` uses): ASCII alphanumerics and
`*`, `-`, `.`, `_` stay, space becomes `+`, everything else `%XX`. -/
def encodeByte (b : UInt8) : String :=
  let n := b.toNat
  if (65 ≤ n && n ≤ 90) || (97 ≤ n && n ≤ 122) || (48 ≤ n && n ≤ 57) ||
     n == 42 || n == 45 || n == 46 || n == 95 then
    String.singleton (Char.ofNat n)
  else if n == 32 then "+"
  else "%" ++ String.singleton (hexDigit (n / 16)) ++ String.singleton (hexDigit (n % 16))

/-- Percent-encoding of a string, byte by byte over its UTF-8 form. -/
def urlencode (s : String) : String :=
  String.join (s.toUTF8.toList.map encodeByte)

/-- `URLSearchParams.toString()`: `k=v` pairs joined by `&`. -/
def encodeParams (ps : List (String × String)) : String :=
  String.intercalate "&" (ps.map fun kv => urlencode kv.1 ++ "=" ++ urlencode kv.2)

/-- `getErrorMessageForStatus(status, id = '')` from `src/lib/jobApi.js`. -/
def getErrorMessageForStatus (status : Nat) (id : String) : String :=
  if status = 400 then "Bad Request: Something is wrong with the query parameters"
  else if status = 404 then
    (if id ≠ "" then "Missing Ad: The requested ad with ID " ++ id ++ " is not available"
     else "Resource not found")
  else if status = 429 then
    "Rate limit exceeded: You have sent too many requests in a given amount of time"
  else if status = 500 then "Internal Server Error: Server-side issue"
  else "HTTP Error: " ++ toString status

/-- The outcome of `response.json()`: a parsed value, or a thrown
SyntaxError when the body is not JSON. -/
inductive JsonOutcome where
  | ok (v : JsValue) : JsonOutcome
  | err (message : String) : JsonOutcome

/-- `response.json()` as an `Except`. -/
def JsonOutcome.toExcept : JsonOutcome → Except String JsValue
  | .ok v => .ok v
  | .err m => .error m

/-- The parts of a `fetch` `Response` this client reads: `ok`, `status`,
the two headers, and what `response.json()` would do. -/
structure Response where
  ok : Bool
  status : Nat
  contentType : Option String
  contentLength : Option String
  body : JsonOutcome

/-- What one `fetch` call did: either the promise rejected with a
network-level exception carrying a message, or a `Response` arrived. -/
inductive FetchOutcome where
  | networkError (message : String) : FetchOutcome
  | success (resp : Response) : FetchOutcome

/-- `contentType?.includes('application/json')` with JS truthiness of
the optional-chaining result. -/
def ctIncludesJson (ct : Option String) : Bool :=
  match ct with
  | none => false
  | some s => strIncludes s "application/json"

/-- The result record of `searchJobs`. Success carries `query` and no
`error`; every failure carries `error` and no `query`. The `error` and
`total` members keep their JavaScript type (`errorData.message` and
`data.total` are used unconverted). -/
structure SearchResult where
  hits : JsValue
  total : JsValue
  query : Option String
  error : Option JsValue

/-- The body of the `try` block of `searchJobs`: any `.error` is what
the `catch` clause receives. -/
def searchJobsTry (o : SearchOptions) (w : FetchOutcome) : Except String SearchResult := do
  let ps ← buildParams o
  let url := API_BASE_URL ++ "/joblinks?" ++ encodeParams ps
  match w with
  | .networkError m => throw m
  | .success resp =>
    if ¬ resp.ok then
      if ctIncludesJson resp.contentType then
        -- inner try/catch around response.json() and errorData.message
        match (do
                let d ← resp.body.toExcept
                jsGetMember d "message" : Except String JsValue) with
        | .ok msgV =>
            pure { hits := .arr [], total := .num 0, query := none,
                   error := some (jsOr msgV (.str ("API error: " ++ toString resp.status))) }
        | .error _ =>
            pure { hits := .arr [], total := .num 0, query := none,
                   error := some (.str ("API error: " ++ toString resp.status)) }
      else
        pure { hits := .arr [], total := .num 0, query := none,
               error := some (.str (getErrorMessageForStatus resp.status "")) }
    else do
      let data ← resp.body.toExcept
      let h ← jsGetMember data "hits"
      let t ← jsGetMember data "total"
      pure { hits := jsOr h (.arr []), total := jsOr t (.num 0),
             query := some url, error := none }

/-- `searchJobs` from `src/lib/jobApi.js`, the `catch` clause included:
a thrown exception becomes `{ hits: [], total: 0, error: error.message }`. -/
def searchJobs (o : SearchOptions) (w : FetchOutcome) : SearchResult :=
  match searchJobsTry o w with
  | .ok r => r
  | .error m => { hits := .arr [], total := .num 0, query := none, error := some (.str m) }

/-- The result record of `getJobById`. -/
structure JobByIdResult where
  data : Option JsValue
  error : Option String
  status : Option Nat

/-- `getJobById(id)` from `src/lib/jobApi.js`, instrumented with the
list of URLs actually fetched (second component), so that the absence of
a network request is visible in the model. The `catch` clause also
covers a failing `response.json()`. -/
def getJobById (id : Option String) (w : FetchOutcome) : JobByIdResult × List String :=
  let idv := id.getD ""
  if idv = "" then
    ({ data := none, error := some "Job ID is required", status := none }, [])
  else
    let url := API_BASE_URL ++ "/ad/" ++ idv
    match w with
    | .networkError _ =>
        ({ data := none, error := some "Network error when fetching job details",
           status := none }, [url])
    | .success resp =>
        if ¬ resp.ok then
          ({ data := none, error := some (getErrorMessageForStatus resp.status idv),
             status := some resp.status }, [url])
        else
          match resp.body with
          | .err _ =>
              ({ data := none, error := some "Network error when fetching job details",
                 status := none }, [url])
          | .ok v =>
              if ¬ jsTruthy v then
                ({ data := none, error := some "Empty response from API", status := none }, [url])
              else
                ({ data := some v, error := none, status := none }, [url])

/-- `getJobLogoUrl(id)` from `src/lib/jobApi.js`. -/
def getJobLogoUrl (id : Option String) : Option String :=
  if id.getD "" = "" then none
  else some (API_BASE_URL ++ "/ad/" ++ id.getD "" ++ "/logo")

/-- `isValidLogo(imageUrl)` from `src/lib/jobApi.js`: truthiness of
`response.ok && contentType?.startsWith('image/') &&
(!contentLength || parseInt(contentLength, 10) > 100)`, `false` on a
falsy URL or a thrown fetch. -/
def isValidLogo (imageUrl : Option String) (w : FetchOutcome) : Bool :=
  if imageUrl.getD "" = "" then false
  else
    match w with
    | .networkError _ => false
    | .success resp =>
        resp.ok &&
        (match resp.contentType with
         | some ct => "image/".data.isPrefixOf ct.data
         | none => false) &&
        (match resp.contentLength with
         | none => true
         | some cl =>
             if cl = "" then true
             else match jsParseInt cl with
                  | some n => decide (n > 100)
                  | none => false)

/-- Well-formedness of a caller-supplied `Date` in `publishedAfter`: a
valid JavaScript `Date` never renders to an empty ISO string (an
ECMAScript invariant; it is automatic for dates produced by
`jsNewDate`). -/
def pubWf (o : SearchOptions) : Prop :=
  match o.publishedAfter with
  | some (.date (.valid iso)) => iso ≠ ""
  | _ => True

/-- The `publishedAfter` values on which `formatPublishedAfterDate`
cannot throw: empty, a parseable date string, or a valid `Date`. -/
def DateOkP : DateInput → Prop
  | .str s => s = "" ∨ jsNewDate s ≠ .invalid
  | .date d => d ≠ .invalid

/-- A 200 response whose body carries `hits: []` and an object-shaped
`total: {value: 42}`, the upstream shape named by the spec. -/
def respTotalObj : Response :=
  { ok := true, status := 200, contentType := some "application/json",
    contentLength := none,
    body := .ok (.obj [("hits", .arr []), ("total", .obj [("value", .num 42)])]) }

/-- A 400 response that claims a JSON content type but whose body does
not parse as JSON. -/
def resp400badJson : Response :=
  { ok := false, status := 400, contentType := some "application/json",
    contentLength := none, body := .err "Unexpected token" }

/-- A non-2xx response with a non-JSON content type and an unusual
status code. -/
def resp418 : Response :=
  { ok := false, status := 418, contentType := some "text/plain",
    contentLength := none, body := .err "no body" }

/-- A plain 404 response with a non-JSON content type. -/
def resp404 : Response :=
  { ok := false, status := 404, contentType := some "text/plain",
    contentLength := none, body := .err "no body" }

/-- A successful HEAD probe: `image/png`, no `content-length`. -/
def respPng : Response :=
  { ok := true, status := 200, contentType := some "image/png",
    contentLength := none, body := .ok .null }

/-- A successful HEAD probe: `image/png` with `content-length: 43`
(the placeholder-pixel size). -/
def respPng43 : Response :=
  { ok := true, status := 200, contentType := some "image/png",
    contentLength := some "43", body := .ok .null }

/-! Helper lemmas about the query builder. -/

theorem mem_ite_singleton {α : Type} {x y : α} {c : Prop} [Decidable c]
    (h : x ∈ (if c then [y] else ([] : List α))) : x = y ∧ c := by
  split at h
  · simp only [List.mem_singleton] at h
    exact ⟨h, by assumption⟩
  · simp at h

theorem buildParams_ok_iff (o : SearchOptions) (ps : List (String × String)) :
    buildParams o = .ok ps ↔
      ∃ pubPart, publishedAfterSeg o = .ok pubPart ∧
        ps = qSeg o ++ municipalitySeg o ++ regionSeg o ++ countrySeg o ++
             occupationFieldSeg o ++ occupationGroupSeg o ++ employerSeg o ++
             remoteSeg o ++ abroadSeg o ++ excludeSourceSeg o ++ pubPart ++
             limitSeg o ++ offsetSeg o ++ sortSeg o := by
  unfold buildParams
  cases h : publishedAfterSeg o with
  | error e => simp [h, Except.bind]
  | ok l => simp [h, Except.bind, eq_comm]

theorem trimSeg_mem (key : String) (x : Option String) (kv : String × String)
    (h : kv ∈ (if (jsTrim (x.getD "") ≠ "") then [(key, jsTrim (x.getD ""))] else [])) :
    kv.1 = key ∧ kv.2 ≠ "" := by
  obtain ⟨rfl, hc⟩ := mem_ite_singleton h
  exact ⟨rfl, hc⟩

theorem qSeg_mem (o : SearchOptions) (kv : String × String) (h : kv ∈ qSeg o) :
    kv.1 = "q" ∧ kv.2 ≠ "" :=
  trimSeg_mem "q" o.q kv h

theorem regionSeg_mem (o : SearchOptions) (kv : String × String) (h : kv ∈ regionSeg o) :
    kv.1 = "region" ∧ kv.2 ≠ "" :=
  trimSeg_mem "region" o.region kv h

theorem countrySeg_mem (o : SearchOptions) (kv : String × String) (h : kv ∈ countrySeg o) :
    kv.1 = "country" ∧ kv.2 ≠ "" :=
  trimSeg_mem "country" o.country kv h

theorem occupationFieldSeg_mem (o : SearchOptions) (kv : String × String)
    (h : kv ∈ occupationFieldSeg o) : kv.1 = "occupation-field" ∧ kv.2 ≠ "" :=
  trimSeg_mem "occupation-field" o.occupationField kv h

theorem occupationGroupSeg_mem (o : SearchOptions) (kv : String × String)
    (h : kv ∈ occupationGroupSeg o) : kv.1 = "occupation-group" ∧ kv.2 ≠ "" :=
  trimSeg_mem "occupation-group" o.occupationGroup kv h

theorem employerSeg_mem (o : SearchOptions) (kv : String × String)
    (h : kv ∈ employerSeg o) : kv.1 = "employer" ∧ kv.2 ≠ "" :=
  trimSeg_mem "employer" o.employer kv h

theorem excludeSourceSeg_mem (o : SearchOptions) (kv : String × String)
    (h : kv ∈ excludeSourceSeg o) : kv.1 = "exclude_source" ∧ kv.2 ≠ "" :=
  trimSeg_mem "exclude_source" o.excludeSource kv h

theorem remoteSeg_mem (o : SearchOptions) (kv : String × String)
    (h : kv ∈ remoteSeg o) : kv.1 = "remote" ∧ kv.2 ≠ "" := by
  obtain ⟨rfl, -⟩ := mem_ite_singleton h
  exact ⟨rfl, by decide⟩

theorem abroadSeg_mem (o : SearchOptions) (kv : String × String)
    (h : kv ∈ abroadSeg o) : kv.1 = "abroad" ∧ kv.2 ≠ "" := by
  obtain ⟨rfl, -⟩ := mem_ite_singleton h
  exact ⟨rfl, by decide⟩

theorem municipalitySeg_eq (o : SearchOptions) :
    municipalitySeg o =
      (if jsTrim (o.municipality.getD "") = "" then []
       else [("municipality",
              if jsTrim (o.municipality.getD "") = "Stockholm" then "0180"
              else jsTrim (o.municipality.getD ""))]) := by
  unfold municipalitySeg
  by_cases h0 : jsTrim (o.municipality.getD "") = ""
  · simp [h0]
  · simp only [h0, ne_eq, not_false_eq_true, if_true, if_false, ite_false]
    by_cases h1 : jsTrim (o.municipality.getD "") = "Stockholm"
    · simp [h1]
    · simp only [h1, if_false, ite_false]
      split <;> [rfl; split <;> rfl]

theorem municipalitySeg_mem (o : SearchOptions) (kv : String × String)
    (h : kv ∈ municipalitySeg o) : kv.1 = "municipality" ∧ kv.2 ≠ "" := by
  rw [municipalitySeg_eq] at h
  split at h
  next hemp => simp at h
  next hne =>
    simp only [List.mem_singleton] at h
    subst h
    refine ⟨rfl, ?_⟩
    by_cases hs : jsTrim (o.municipality.getD "") = "Stockholm"
    · simp [hs]
    · simpa [hs] using hne

theorem toDigitsCore_length_ge (b : Nat) :
    ∀ (f n : Nat) (ds : List Char), ds.length ≤ (Nat.toDigitsCore b f n ds).length := by
  intro f
  induction f with
  | zero => intro n ds; simp [Nat.toDigitsCore]
  | succ f ih =>
    intro n ds
    unfold Nat.toDigitsCore
    dsimp only
    split
    · simp
    · calc ds.length ≤ (Nat.digitChar (n % b) :: ds).length := by simp
        _ ≤ _ := ih _ _

theorem natRepr_ne_empty (n : Nat) : Nat.repr n ≠ "" := by
  unfold Nat.repr
  have h : 1 ≤ (Nat.toDigits 10 n).length := by
    unfold Nat.toDigits
    unfold Nat.toDigitsCore
    dsimp only
    split
    · simp
    · calc 1 ≤ (Nat.digitChar (n % 10) :: []).length := by simp
        _ ≤ _ := toDigitsCore_length_ge 10 _ _ _
  intro hc
  have h2 : (Nat.toDigits 10 n).asString.length = 0 := by rw [hc]; rfl
  rw [List.length_asString] at h2
  omega

theorem intRepr_ne_empty (i : Int) : Int.repr i ≠ "" := by
  unfold Int.repr
  split
  · apply natRepr_ne_empty
  case _ m =>
    intro hc
    have h2 : ("-" ++ Nat.repr (m + 1)).length = 0 := by rw [hc]; rfl
    rw [String.length_append] at h2
    have h3 : ("-" : String).length = 1 := rfl
    omega

theorem limitSeg_mem (o : SearchOptions) (kv : String × String)
    (h : kv ∈ limitSeg o) : kv.1 = "limit" ∧ kv.2 ≠ "" := by
  simp only [limitSeg, List.mem_singleton] at h
  subst h
  exact ⟨rfl, intRepr_ne_empty _⟩

theorem offsetSeg_mem (o : SearchOptions) (kv : String × String)
    (h : kv ∈ offsetSeg o) : kv.1 = "offset" ∧ kv.2 ≠ "" := by
  simp only [offsetSeg, List.mem_singleton] at h
  subst h
  exact ⟨rfl, intRepr_ne_empty _⟩

theorem sortSeg_mem (o : SearchOptions) (kv : String × String)
    (h : kv ∈ sortSeg o) : kv.1 = "sort" ∧ kv.2 ≠ "" := by
  unfold sortSeg at h
  obtain ⟨rfl, hc⟩ := mem_ite_singleton h
  refine ⟨rfl, ?_⟩
  dsimp only
  intro hemp
  rw [hemp] at hc
  simp at hc

theorem jsNewDate_valid_ne_empty {s iso : String} (h : jsNewDate s = .valid iso) :
    iso ≠ "" := by
  unfold jsNewDate at h
  split at h
  · split at h
    · dsimp only at h
      split at h
      · cases h
        intro hc
        have hl := congrArg String.length hc
        rw [String.length_append] at hl
        have h14 : ("T00:00:00.000Z" : String).length = 14 := rfl
        have h0 : ("" : String).length = 0 := rfl
        omega
      · cases h
    · cases h
  · cases h

theorem publishedAfterSeg_mem (o : SearchOptions) (l : List (String × String))
    (kv : String × String) (hok : publishedAfterSeg o = .ok l) (hkv : kv ∈ l) :
    kv.1 = "published-after" ∧ (pubWf o → kv.2 ≠ "") := by
  unfold publishedAfterSeg at hok
  dsimp only at hok
  split at hok
  case isTrue htr =>
    cases hfmt : formatPublishedAfterDate (o.publishedAfter.getD (.str "")) with
    | error e =>
        rw [hfmt] at hok
        exact Except.noConfusion (show Except.error e = Except.ok l from hok)
    | ok v =>
        rw [hfmt] at hok
        have hok2 : Except.ok [("published-after", v)] = Except.ok l := hok
        have hok3 : [("published-after", v)] = l := by injection hok2
        subst hok3
        simp only [List.mem_singleton] at hkv
        subst hkv
        refine ⟨rfl, ?_⟩
        intro hwf hemp
        dsimp only at hemp
        subst hemp
        cases hpa : o.publishedAfter with
        | none =>
            rw [hpa] at htr
            exact absurd htr (by decide)
        | some di =>
            rw [hpa] at hfmt htr
            cases di with
            | str s =>
                have htr2 : (DateInput.str s).jsTruthyD = true := htr
                have hfmt2 : formatPublishedAfterDate (DateInput.str s) = Except.ok "" := hfmt
                unfold formatPublishedAfterDate at hfmt2
                rw [if_neg (not_not_intro htr2)] at hfmt2
                have hfmt3 : (jsNewDate s).toISOString = Except.ok "" := hfmt2
                cases hnd : jsNewDate s with
                | valid iso =>
                    rw [hnd] at hfmt3
                    have hiso : iso = "" := by
                      injection (show Except.ok iso = Except.ok "" from hfmt3)
                    exact jsNewDate_valid_ne_empty hnd hiso
                | invalid =>
                    rw [hnd] at hfmt3
                    exact Except.noConfusion
                      (show Except.error "Invalid time value" = Except.ok "" from hfmt3)
            | date d =>
                have htr2 : (DateInput.date d).jsTruthyD = true := htr
                have hfmt2 : formatPublishedAfterDate (DateInput.date d) = Except.ok "" := hfmt
                unfold formatPublishedAfterDate at hfmt2
                rw [if_neg (not_not_intro htr2)] at hfmt2
                have hfmt3 : d.toISOString = Except.ok "" := hfmt2
                cases d with
                | valid iso =>
                    have hiso : iso = "" := by
                      injection (show Except.ok iso = Except.ok "" from hfmt3)
                    simp only [pubWf, hpa] at hwf
                    exact hwf hiso
                | invalid =>
                    exact Except.noConfusion
                      (show Except.error "Invalid time value" = Except.ok "" from hfmt3)
  case isFalse =>
    have hok2 : Except.ok ([] : List (String × String)) = Except.ok l := hok
    have hok3 : ([] : List (String × String)) = l := by injection hok2
    subst hok3
    simp at hkv

theorem filter_key_nil {key : String} {l : List (String × String)}
    (hk : ∀ kv ∈ l, kv.1 ≠ key) : (l.filter fun kv => kv.1 == key) = [] :=
  List.filter_eq_nil_iff.mpr (by intro a ha; simpa using hk a ha)

theorem filter_seg_ne {l : List (String × String)} (key segKey : String)
    (hall : ∀ kv ∈ l, kv.1 = segKey) (hne : segKey ≠ key) :
    (l.filter fun kv => kv.1 == key) = [] :=
  filter_key_nil fun kv hkv => by rw [hall kv hkv]; exact hne

/-! Claim theorems. -/

/-- Counterexample to claim C1: on a successful response whose `total` is
the object `{value: 42}`, `searchJobs` returns that object unchanged as
`total`; it is not the integer 42. -/
theorem c1_total_object_passthrough_cx :
    (searchJobs defaultOpts (.success respTotalObj)).total = .obj [("value", .num 42)] ∧
    (searchJobs defaultOpts (.success respTotalObj)).total ≠ .num 42 := by
  constructor
  · rfl
  · intro hc
    have h0 : (searchJobs defaultOpts (.success respTotalObj)).total =
        JsValue.obj [("value", JsValue.num 42)] := rfl
    rw [h0] at hc
    exact JsValue.noConfusion hc

/-- Claim C1, amended: on every successful search response, `searchJobs`
computes `total` as `data.total || 0`: a falsy or absent upstream `total`
becomes 0, and any truthy upstream value — an object such as
`{value: 42}` included — is passed through unchanged, with no unwrapping
of a `value` member and no numeric coercion; callers do branch on the
shape (pages of this repository unwrap it themselves). Likewise `hits`
is `data.hits || []`. -/
theorem c1_total_passthrough : ∀ (o : SearchOptions) (ps : List (String × String))
    (resp : Response) (data hv tv : JsValue),
    buildParams o = .ok ps → resp.ok = true → resp.body = .ok data →
    jsGetMember data "hits" = .ok hv → jsGetMember data "total" = .ok tv →
    (searchJobs o (.success resp)).total = jsOr tv (.num 0) ∧
    (searchJobs o (.success resp)).hits = jsOr hv (.arr []) := by
  intro o ps resp data hv tv hbp hok hbody hh ht
  unfold searchJobs searchJobsTry
  rw [hbp]
  simp [hok, hbody, hh, ht, JsonOutcome.toExcept, Except.instMonad, Except.bind,
    Except.map, Except.pure]

/-- Witness for C1: the amended theorem applied at the `{value: 42}`
response. -/
theorem c1_total_passthrough_w :
    (searchJobs defaultOpts (.success respTotalObj)).total = .obj [("value", .num 42)] ∧
    (searchJobs defaultOpts (.success respTotalObj)).hits = .arr [] := by
  have h := c1_total_passthrough defaultOpts [("limit", "20"), ("offset", "0"), ("sort", "pubdate-desc")]
    respTotalObj (.obj [("hits", .arr []), ("total", .obj [("value", .num 42)])])
    (.arr []) (.obj [("value", .num 42)]) rfl rfl rfl rfl rfl
  exact ⟨h.1, h.2⟩

set_option maxHeartbeats 1000000 in
/-- Claim C2: in the query built by `searchJobs`, a municipality whose
trimmed value is the literal `"Stockholm"` is rewritten to the fixed code
`"0180"`, so `"Stockholm"` and `"0180"` produce byte-identical parameter
lists, while every other trimmed non-empty value (such as `"Uppsala"`) is
passed through verbatim. -/
theorem c2_municipality_stockholm_rewrite :
    (∀ (o : SearchOptions) (ps : List (String × String)), buildParams o = .ok ps →
       ps.filter (fun kv => kv.1 == "municipality") =
         (if jsTrim (o.municipality.getD "") = "" then []
          else [("municipality",
                 if jsTrim (o.municipality.getD "") = "Stockholm" then "0180"
                 else jsTrim (o.municipality.getD ""))]))
    ∧ (∀ o : SearchOptions,
        buildParams { o with municipality := some "Stockholm" } =
        buildParams { o with municipality := some "0180" }) := by
  constructor
  · intro o ps h
    obtain ⟨pubPart, hpub, rfl⟩ := (buildParams_ok_iff o ps).mp h
    rw [← municipalitySeg_eq]
    simp only [List.filter_append]
    rw [filter_seg_ne "municipality" "q" (fun kv hkv => (qSeg_mem o kv hkv).1) (by decide),
        filter_seg_ne "municipality" "region" (fun kv hkv => (regionSeg_mem o kv hkv).1) (by decide),
        filter_seg_ne "municipality" "country" (fun kv hkv => (countrySeg_mem o kv hkv).1) (by decide),
        filter_seg_ne "municipality" "occupation-field"
          (fun kv hkv => (occupationFieldSeg_mem o kv hkv).1) (by decide),
        filter_seg_ne "municipality" "occupation-group"
          (fun kv hkv => (occupationGroupSeg_mem o kv hkv).1) (by decide),
        filter_seg_ne "municipality" "employer" (fun kv hkv => (employerSeg_mem o kv hkv).1) (by decide),
        filter_seg_ne "municipality" "remote" (fun kv hkv => (remoteSeg_mem o kv hkv).1) (by decide),
        filter_seg_ne "municipality" "abroad" (fun kv hkv => (abroadSeg_mem o kv hkv).1) (by decide),
        filter_seg_ne "municipality" "exclude_source"
          (fun kv hkv => (excludeSourceSeg_mem o kv hkv).1) (by decide),
        filter_seg_ne "municipality" "published-after"
          (fun kv hkv => (publishedAfterSeg_mem o pubPart kv hpub hkv).1) (by decide),
        filter_seg_ne "municipality" "limit" (fun kv hkv => (limitSeg_mem o kv hkv).1) (by decide),
        filter_seg_ne "municipality" "offset" (fun kv hkv => (offsetSeg_mem o kv hkv).1) (by decide),
        filter_seg_ne "municipality" "sort" (fun kv hkv => (sortSeg_mem o kv hkv).1) (by decide),
        List.filter_eq_self.mpr
          (fun kv hkv => by simp [(municipalitySeg_mem o kv hkv).1])]
    simp
  · intro o
    have hp : publishedAfterSeg { o with municipality := some "Stockholm" } =
              publishedAfterSeg { o with municipality := some "0180" } := rfl
    have hm : municipalitySeg { o with municipality := some "Stockholm" } =
              municipalitySeg { o with municipality := some "0180" } := by
      rw [municipalitySeg_eq, municipalitySeg_eq]
      rfl
    have hq : qSeg { o with municipality := some "Stockholm" } =
              qSeg { o with municipality := some "0180" } := rfl
    have h3 : regionSeg { o with municipality := some "Stockholm" } =
              regionSeg { o with municipality := some "0180" } := rfl
    have h4 : countrySeg { o with municipality := some "Stockholm" } =
              countrySeg { o with municipality := some "0180" } := rfl
    have h5 : occupationFieldSeg { o with municipality := some "Stockholm" } =
              occupationFieldSeg { o with municipality := some "0180" } := rfl
    have h6 : occupationGroupSeg { o with municipality := some "Stockholm" } =
              occupationGroupSeg { o with municipality := some "0180" } := rfl
    have h7 : employerSeg { o with municipality := some "Stockholm" } =
              employerSeg { o with municipality := some "0180" } := rfl
    have h8 : remoteSeg { o with municipality := some "Stockholm" } =
              remoteSeg { o with municipality := some "0180" } := rfl
    have h9 : abroadSeg { o with municipality := some "Stockholm" } =
              abroadSeg { o with municipality := some "0180" } := rfl
    have h10 : excludeSourceSeg { o with municipality := some "Stockholm" } =
               excludeSourceSeg { o with municipality := some "0180" } := rfl
    have h11 : limitSeg { o with municipality := some "Stockholm" } =
               limitSeg { o with municipality := some "0180" } := rfl
    have h12 : offsetSeg { o with municipality := some "Stockholm" } =
               offsetSeg { o with municipality := some "0180" } := rfl
    have h13 : sortSeg { o with municipality := some "Stockholm" } =
               sortSeg { o with municipality := some "0180" } := rfl
    simp only [buildParams, hp, hm, hq, h3, h4, h5, h6, h7, h8, h9, h10, h11, h12, h13]

/-- Witness for C2: `" Uppsala "` passes through trimmed, and the
Stockholm rewrite makes the two parameter lists identical. -/
theorem c2_municipality_stockholm_rewrite_w :
    (List.filter (fun kv => kv.1 == "municipality")
      [("municipality", "Uppsala"), ("limit", "20"), ("offset", "0"), ("sort", "pubdate-desc")]) =
      [("municipality", "Uppsala")] ∧
    buildParams { defaultOpts with municipality := some "Stockholm" } =
      buildParams { defaultOpts with municipality := some "0180" } := by
  constructor
  · exact c2_municipality_stockholm_rewrite.1 { defaultOpts with municipality := some " Uppsala " }
      [("municipality", "Uppsala"), ("limit", "20"), ("offset", "0"), ("sort", "pubdate-desc")] rfl
  · exact c2_municipality_stockholm_rewrite.2 defaultOpts

set_option maxHeartbeats 1000000 in
/-- Claim C3: whenever `searchJobs` builds a query, the parameter list
contains `limit` clamped into [1,100] and `offset` clamped into
[0,2000], with defaults limit 20 and offset 0 applied before clamping
when the caller supplied no value. -/
theorem c3_pagination_clamped : ∀ (o : SearchOptions) (ps : List (String × String)),
    buildParams o = .ok ps →
    ("limit", toString (min 100 (max 1 (o.limit.getD 20)))) ∈ ps ∧
    ("offset", toString (max 0 (min 2000 (o.offset.getD 0)))) ∈ ps ∧
    1 ≤ min 100 (max 1 (o.limit.getD 20)) ∧
    min 100 (max 1 (o.limit.getD 20)) ≤ 100 ∧
    0 ≤ max 0 (min 2000 (o.offset.getD 0)) ∧
    max 0 (min 2000 (o.offset.getD 0)) ≤ 2000 := by
  intro o ps h
  obtain ⟨pubPart, hpub, rfl⟩ := (buildParams_ok_iff o ps).mp h
  refine ⟨?_, ?_, by omega, by omega, by omega, by omega⟩
  · exact List.mem_append_left _ (List.mem_append_left _
      (List.mem_append_right _ (by simp [limitSeg])))
  · exact List.mem_append_left _
      (List.mem_append_right _ (by simp [offsetSeg]))

/-- Witness for C3: limit 500 is clamped to 100 and offset -7 to 0. -/
theorem c3_pagination_clamped_w :
    ("limit", "100") ∈ ([("limit", "100"), ("offset", "0"), ("sort", "pubdate-desc")] :
      List (String × String)) ∧
    ("offset", "0") ∈ ([("limit", "100"), ("offset", "0"), ("sort", "pubdate-desc")] :
      List (String × String)) := by
  have h := c3_pagination_clamped { defaultOpts with limit := some 500, offset := some (-7) }
    [("limit", "100"), ("offset", "0"), ("sort", "pubdate-desc")] rfl
  exact ⟨h.1, h.2.1⟩

set_option maxHeartbeats 1000000 in
/-- Claim C4: the `sort` parameter appears in the built query exactly
when its value (default `pubdate-desc`) is a member of the fixed allowed
set `pubdate-desc`, `pubdate-asc`, `relevance`; any other value is
silently dropped. -/
theorem c4_sort_allowlist : ∀ (o : SearchOptions) (ps : List (String × String)),
    buildParams o = .ok ps →
    ps.filter (fun kv => kv.1 == "sort") =
      (if (o.sort.getD "pubdate-desc") ∈ (["pubdate-desc", "pubdate-asc", "relevance"] : List String)
       then [("sort", o.sort.getD "pubdate-desc")] else []) := by
  intro o ps h
  obtain ⟨pubPart, hpub, rfl⟩ := (buildParams_ok_iff o ps).mp h
  have hs : sortSeg o =
      (if (o.sort.getD "pubdate-desc") ∈ (["pubdate-desc", "pubdate-asc", "relevance"] : List String)
       then [("sort", o.sort.getD "pubdate-desc")] else []) := by
    unfold sortSeg
    by_cases hmem : (o.sort.getD "pubdate-desc") ∈ (["pubdate-desc", "pubdate-asc", "relevance"] : List String)
    · have hne : o.sort.getD "pubdate-desc" ≠ "" := by
        intro he
        rw [he] at hmem
        simp at hmem
      simp [hmem, hne]
    · simp [hmem]
  simp only [List.filter_append]
  rw [filter_seg_ne "sort" "q" (fun kv hkv => (qSeg_mem o kv hkv).1) (by decide),
      filter_seg_ne "sort" "municipality" (fun kv hkv => (municipalitySeg_mem o kv hkv).1) (by decide),
      filter_seg_ne "sort" "region" (fun kv hkv => (regionSeg_mem o kv hkv).1) (by decide),
      filter_seg_ne "sort" "country" (fun kv hkv => (countrySeg_mem o kv hkv).1) (by decide),
      filter_seg_ne "sort" "occupation-field"
        (fun kv hkv => (occupationFieldSeg_mem o kv hkv).1) (by decide),
      filter_seg_ne "sort" "occupation-group"
        (fun kv hkv => (occupationGroupSeg_mem o kv hkv).1) (by decide),
      filter_seg_ne "sort" "employer" (fun kv hkv => (employerSeg_mem o kv hkv).1) (by decide),
      filter_seg_ne "sort" "remote" (fun kv hkv => (remoteSeg_mem o kv hkv).1) (by decide),
      filter_seg_ne "sort" "abroad" (fun kv hkv => (abroadSeg_mem o kv hkv).1) (by decide),
      filter_seg_ne "sort" "exclude_source"
        (fun kv hkv => (excludeSourceSeg_mem o kv hkv).1) (by decide),
      filter_seg_ne "sort" "published-after"
        (fun kv hkv => (publishedAfterSeg_mem o pubPart kv hpub hkv).1) (by decide),
      filter_seg_ne "sort" "limit" (fun kv hkv => (limitSeg_mem o kv hkv).1) (by decide),
      filter_seg_ne "sort" "offset" (fun kv hkv => (offsetSeg_mem o kv hkv).1) (by decide),
      List.filter_eq_self.mpr (fun kv hkv => by simp [(sortSeg_mem o kv hkv).1]),
      hs]
  simp

/-- Witness for C4: `relevance-desc` is dropped entirely, the default
`pubdate-desc` is included. -/
theorem c4_sort_allowlist_w :
    (List.filter (fun kv => kv.1 == "sort")
      [("limit", "20"), ("offset", "0")] : List (String × String)) = [] ∧
    (List.filter (fun kv => kv.1 == "sort")
      [("limit", "20"), ("offset", "0"), ("sort", "pubdate-desc")] : List (String × String)) =
      [("sort", "pubdate-desc")] := by
  constructor
  · exact c4_sort_allowlist { defaultOpts with sort := some "relevance-desc" }
      [("limit", "20"), ("offset", "0")] rfl
  · exact c4_sort_allowlist defaultOpts [("limit", "20"), ("offset", "0"), ("sort", "pubdate-desc")] rfl

/-- Counterexample to claim C5: with `publishedAfter` the truthy but
unparseable string `"not-a-date"`, query construction raises (a
RangeError from `toISOString` on an Invalid Date) instead of producing a
string. -/
theorem c5_query_build_date_throws_cx :
    buildParams { defaultOpts with publishedAfter := some (.str "not-a-date") } =
      .error "Invalid time value" ∧
    formatPublishedAfterDate (.str "not-a-date") = .error "Invalid time value" :=
  ⟨rfl, rfl⟩

/-- Claim C5, amended: query construction produces a string without
raising whenever the `publishedAfter` value, if truthy, denotes a valid
date (empty or absent, a parseable date string, or a valid `Date`); when
it does raise, the exception is caught by the surrounding `try` of
`searchJobs` and returned as an error result, never propagated. -/
theorem c5_query_build_safe :
    (∀ o : SearchOptions, DateOkP (o.publishedAfter.getD (.str "")) →
       ∃ ps, buildParams o = .ok ps)
    ∧ (∀ (o : SearchOptions) (w : FetchOutcome) (m : String),
        buildParams o = .error m →
        searchJobs o w =
          { hits := .arr [], total := .num 0, query := none, error := some (.str m) }) := by
  constructor
  · intro o hok
    have hpub : ∃ l, publishedAfterSeg o = .ok l := by
      unfold publishedAfterSeg
      dsimp only
      split
      case isTrue htr =>
        cases hpd : o.publishedAfter.getD (.str "") with
        | str s =>
            rw [hpd] at hok htr
            simp only [DateOkP] at hok
            rcases hok with he | hnd
            · rw [he] at htr
              exact absurd htr (by decide)
            · cases hjd : jsNewDate s with
              | valid iso =>
                  have hfmt : formatPublishedAfterDate (.str s) = .ok iso := by
                    unfold formatPublishedAfterDate
                    rw [if_neg (not_not_intro (show (DateInput.str s).jsTruthyD = true from htr))]
                    show (jsNewDate s).toISOString = _
                    rw [hjd]
                    rfl
                  rw [hfmt]
                  exact ⟨[("published-after", iso)], rfl⟩
              | invalid => exact absurd hjd hnd
        | date d =>
            rw [hpd] at hok
            simp only [DateOkP] at hok
            cases d with
            | valid iso =>
                have hfmt : formatPublishedAfterDate (.date (.valid iso)) = .ok iso := rfl
                rw [hfmt]
                exact ⟨[("published-after", iso)], rfl⟩
            | invalid => exact absurd rfl hok
      case isFalse =>
        exact ⟨[], rfl⟩
    obtain ⟨l, hl⟩ := hpub
    exact ⟨_, (buildParams_ok_iff o _).mpr ⟨l, hl, rfl⟩⟩
  · intro o w m h
    unfold searchJobs searchJobsTry
    rw [h]
    rfl

/-- Witness for C5: construction succeeds at the parseable date string
`"2025-01-01"`. -/
theorem c5_query_build_safe_w :
    (buildParams { defaultOpts with publishedAfter := some (.str "2025-01-01") }).isOk = true := by
  have hok : DateOkP (({ defaultOpts with publishedAfter := some (.str "2025-01-01") } :
      SearchOptions).publishedAfter.getD (.str "")) := by
    show "2025-01-01" = "" ∨ jsNewDate "2025-01-01" ≠ JsDate.invalid
    right
    intro hc
    exact JsDate.noConfusion
      ((rfl : jsNewDate "2025-01-01" = JsDate.valid "2025-01-01T00:00:00.000Z").symm.trans hc)
  obtain ⟨ps, h⟩ :=
    c5_query_build_safe.1 { defaultOpts with publishedAfter := some (.str "2025-01-01") } hok
  rw [h]
  rfl

/-- Claim C6: a network-level exception during `searchJobs` (the fetch
promise rejecting with message m) yields the data value
`{hits: [], total: 0, error: m}` — the exception message, not a
status-table message — and never a thrown exception (the model of
`searchJobs` is a total function into result records). -/
theorem c6_network_error_returns_data :
    ∀ (o : SearchOptions) (ps : List (String × String)) (m : String),
    buildParams o = .ok ps →
    searchJobs o (.networkError m) =
      { hits := .arr [], total := .num 0, query := none, error := some (.str m) } := by
  intro o ps m h
  unfold searchJobs searchJobsTry
  rw [h]
  rfl

/-- Witness for C6: a failed fetch with the usual browser message. -/
theorem c6_network_error_returns_data_w :
    searchJobs defaultOpts (.networkError "Failed to fetch") =
      { hits := .arr [], total := .num 0, query := none,
        error := some (.str "Failed to fetch") } :=
  c6_network_error_returns_data defaultOpts
    [("limit", "20"), ("offset", "0"), ("sort", "pubdate-desc")] "Failed to fetch" rfl

/-- Counterexample to claim C7: a 400 response with a JSON content type
whose body fails to parse has no parseable JSON error message, yet its
error message is the generic `API error: 400`, not the bad-request entry
of the status table. -/
theorem c7_error_message_cx :
    (searchJobs defaultOpts (.success resp400badJson)).error = some (.str "API error: 400") ∧
    "API error: 400" ≠ getErrorMessageForStatus 400 "" :=
  ⟨rfl, by decide⟩

/-- Claim C7, amended: the fixed status table (400 bad request, 404
missing resource with the identifier interpolated when available, 429
rate limit, 500 server error, default generic HTTP-error-with-code) is
used by `getJobById` for every non-2xx response — the error field is the
table entry for the status with the requested identifier passed in, and
the status is recorded — and by `searchJobs` for every non-2xx response
whose content type is not JSON; a non-2xx response with a JSON content
type but no parseable message yields the generic `API error: <status>`
instead. -/
theorem c7_error_message_table :
    (∀ (o : SearchOptions) (ps : List (String × String)) (resp : Response),
       buildParams o = .ok ps → resp.ok = false → ctIncludesJson resp.contentType = false →
       searchJobs o (.success resp) =
         { hits := .arr [], total := .num 0, query := none,
           error := some (.str (getErrorMessageForStatus resp.status "")) })
    ∧ (∀ (id : String) (resp : Response), id ≠ "" → resp.ok = false →
        (getJobById (some id) (.success resp)).1.error =
          some (getErrorMessageForStatus resp.status id) ∧
        (getJobById (some id) (.success resp)).1.status = some resp.status)
    ∧ (∀ id : String, id ≠ "" →
        getErrorMessageForStatus 404 id =
          "Missing Ad: The requested ad with ID " ++ id ++ " is not available" ∧
        ∃ pre post, getErrorMessageForStatus 404 id = pre ++ id ++ post)
    ∧ getErrorMessageForStatus 400 "" = "Bad Request: Something is wrong with the query parameters"
    ∧ getErrorMessageForStatus 429 "" =
        "Rate limit exceeded: You have sent too many requests in a given amount of time"
    ∧ getErrorMessageForStatus 500 "" = "Internal Server Error: Server-side issue"
    ∧ (∀ st : Nat, st ≠ 400 → st ≠ 404 → st ≠ 429 → st ≠ 500 →
        getErrorMessageForStatus st "" = "HTTP Error: " ++ toString st) := by
  refine ⟨?_, ?_, ?_, rfl, rfl, rfl, ?_⟩
  · intro o ps resp hbp hok hct
    unfold searchJobs searchJobsTry
    rw [hbp]
    simp [hok, hct, Except.instMonad, Except.bind, Except.map, Except.pure]
  · intro id resp hid hok
    unfold getJobById
    rw [if_neg (by simpa using hid)]
    dsimp only
    rw [hok]
    exact ⟨rfl, rfl⟩
  · intro id hid
    have hmsg : getErrorMessageForStatus 404 id =
        "Missing Ad: The requested ad with ID " ++ id ++ " is not available" := by
      simp [getErrorMessageForStatus, hid]
    exact ⟨hmsg, "Missing Ad: The requested ad with ID ", " is not available", hmsg⟩
  · intro st h400 h404 h429 h500
    simp [getErrorMessageForStatus, h400, h404, h429, h500]

/-- Witness for C7: a 418 search response uses the generic table entry;
`getJobById` routes a 404 to the missing-ad message with xyz
interpolated and a 418 to the generic entry with the status recorded. -/
theorem c7_error_message_table_w :
    searchJobs defaultOpts (.success resp418) =
      { hits := .arr [], total := .num 0, query := none,
        error := some (.str "HTTP Error: 418") } ∧
    (getJobById (some "xyz") (.success resp404)).1.error =
      some "Missing Ad: The requested ad with ID xyz is not available" ∧
    (getJobById (some "xyz") (.success resp418)).1.error = some "HTTP Error: 418" ∧
    (getJobById (some "xyz") (.success resp418)).1.status = some 418 := by
  refine ⟨?_, ?_, ?_, ?_⟩
  · exact c7_error_message_table.1 defaultOpts
      [("limit", "20"), ("offset", "0"), ("sort", "pubdate-desc")] resp418 rfl rfl rfl
  · exact (c7_error_message_table.2.1 "xyz" resp404 (by decide) rfl).1
  · exact (c7_error_message_table.2.1 "xyz" resp418 (by decide) rfl).1
  · exact (c7_error_message_table.2.1 "xyz" resp418 (by decide) rfl).2

set_option maxHeartbeats 1000000 in
/-- Claim C8: whenever `searchJobs` builds a query (and any
caller-supplied `Date` renders non-empty, as real `Date` objects do),
no parameter in it has an empty value: optional string fields are
trimmed and omitted entirely when empty. -/
theorem c8_no_empty_params : ∀ (o : SearchOptions) (ps : List (String × String)),
    buildParams o = .ok ps → pubWf o → ∀ kv ∈ ps, kv.2 ≠ "" := by
  intro o ps h hwf kv hkv
  obtain ⟨pubPart, hpub, rfl⟩ := (buildParams_ok_iff o ps).mp h
  simp only [List.mem_append] at hkv
  rcases hkv with ((((((((((((h1 | h2) | h3) | h4) | h5) | h6) | h7) | h8) | h9) | h10) | h11) | h12) | h13) | h14
  · exact (qSeg_mem o kv h1).2
  · exact (municipalitySeg_mem o kv h2).2
  · exact (regionSeg_mem o kv h3).2
  · exact (countrySeg_mem o kv h4).2
  · exact (occupationFieldSeg_mem o kv h5).2
  · exact (occupationGroupSeg_mem o kv h6).2
  · exact (employerSeg_mem o kv h7).2
  · exact (remoteSeg_mem o kv h8).2
  · exact (abroadSeg_mem o kv h9).2
  · exact (excludeSourceSeg_mem o kv h10).2
  · exact (publishedAfterSeg_mem o pubPart kv hpub h11).2 hwf
  · exact (limitSeg_mem o kv h12).2
  · exact (offsetSeg_mem o kv h13).2
  · exact (sortSeg_mem o kv h14).2

/-- Witness for C8: the published-after value of a concrete query is
non-empty. -/
theorem c8_no_empty_params_w : ("published-after", "2025-01-01T00:00:00.000Z").2 ≠ "" := by
  have h := c8_no_empty_params
    { defaultOpts with q := some "  deltid  ", publishedAfter := some (.str "2025-01-01") }
    [("q", "deltid"), ("published-after", "2025-01-01T00:00:00.000Z"),
     ("limit", "20"), ("offset", "0"), ("sort", "pubdate-desc")] rfl trivial
  exact h ("published-after", "2025-01-01T00:00:00.000Z") (by simp)

/-- Claim C9: when the HEAD probe yields a response, `isValidLogo` judges
the logo valid exactly when the response is successful, its content type
starts with `image/`, and any reported non-empty content-length parses
to a number exceeding the 100-byte threshold. -/
theorem c9_logo_heuristic : ∀ (u : String) (resp : Response), u ≠ "" →
    (isValidLogo (some u) (.success resp) = true ↔
      (resp.ok = true ∧
       (∃ ct, resp.contentType = some ct ∧ "image/".data.isPrefixOf ct.data = true) ∧
       (∀ cl, resp.contentLength = some cl → cl ≠ "" →
          ∃ n, jsParseInt cl = some n ∧ 100 < n))) := by
  intro u resp hu
  obtain ⟨ok, st, ct, cl, body⟩ := resp
  unfold isValidLogo
  rw [if_neg (by simpa using hu)]
  dsimp only
  cases ok with
  | false => simp
  | true =>
    cases ct with
    | none => simp
    | some ct0 =>
      cases cl with
      | none => simp
      | some cl0 =>
        by_cases hcl : cl0 = ""
        · subst hcl
          simp
        · simp only [hcl, if_false, ite_false]
          cases hpi : jsParseInt cl0 with
          | none =>
              simp [hpi, hcl]
          | some n =>
              by_cases hn : 100 < n
              · simp [hpi, hcl, hn]
              · simp [hpi, hcl, hn]

/-- Witness for C9: image/png with no content-length is valid;
image/png with content-length 43 is invalid. -/
theorem c9_logo_heuristic_w :
    isValidLogo (some "https://links.api.jobtechdev.se/ad/123/logo") (.success respPng) = true ∧
    isValidLogo (some "https://links.api.jobtechdev.se/ad/123/logo") (.success respPng43) = false := by
  constructor
  · exact (c9_logo_heuristic "https://links.api.jobtechdev.se/ad/123/logo" respPng (by decide)).mpr
      ⟨rfl, ⟨"image/png", rfl, by decide⟩, by intro cl h hne; exact Option.noConfusion h⟩
  · have h := c9_logo_heuristic "https://links.api.jobtechdev.se/ad/123/logo" respPng43 (by decide)
    cases hv : isValidLogo (some "https://links.api.jobtechdev.se/ad/123/logo")
        (.success respPng43) with
    | false => rfl
    | true =>
      exfalso
      obtain ⟨-, -, h3⟩ := h.mp hv
      obtain ⟨n, hn, hgt⟩ := h3 "43" rfl (by decide)
      have h43 : jsParseInt "43" = some 43 := rfl
      rw [h43] at hn
      have hn43 : n = 43 := by injection hn with h2; exact h2.symm
      omega

/-- Claim C10: for a falsy identifier (null, undefined or the empty
string), `getJobById` returns the `Job ID is required` error record
without issuing any network request (the request log stays empty), and
`getJobLogoUrl` returns null. -/
theorem c10_falsy_id_guard : ∀ w : FetchOutcome,
    getJobById none w = ({ data := none, error := some "Job ID is required", status := none }, []) ∧
    getJobById (some "") w =
      ({ data := none, error := some "Job ID is required", status := none }, []) ∧
    getJobLogoUrl none = none ∧ getJobLogoUrl (some "") = none := by
  intro w
  exact ⟨rfl, rfl, rfl, rfl⟩

end JobApi
